import Mathlib

/-!
# Verification of the auth_service password-reset core

Shallow embedding of `src/backend/users/views.py`,
`src/backend/users/services.py`, `src/backend/users/serializers.py`
(the password-reset coordinator, the reset-token cache usage, and
registration), together with theorems settling the frozen claims.

Modelling conventions:
* Django's cache (redis-backed, `cache.set key value timeout` /
  `cache.get` / `cache.delete`) is an expiring key-value store: a list of
  entries each carrying an absolute expiry instant, plus a clock `now`
  held in the global state.  `get` returns the value only while
  `now < expiresAt`, exactly like a TTL store.
* Django model instances (`User.objects`) are a list of records; lookups
  are `find?`, `user.save()` after `set_password` is a by-id update.
* `set_password` (salted slow hash) is an opaque injective stand-in
  `hashPassword`.
* Request fields read with `request.data.get(k)` are `Option String`;
  Python truthiness of such a field (`if not x`) is `pyTruthy`.
* HTTP responses are a status code plus a JSON object of depth at most
  two (all bodies produced by these views fit).
* Nondeterministic inputs of the source (`get_random_string(32)`, the
  fresh database id) are explicit parameters.
-/

namespace AuthService

/-- One-level JSON leaf values appearing in the views' response bodies. -/
inductive JLeaf where
  | jstr (v : String)
  | jbool (v : Bool)
  | jnum (v : Nat)
deriving DecidableEq, Repr

/-- A JSON value of depth at most two: a leaf, or an object of leaves
(the `data` object of the register response). -/
inductive JVal where
  | leaf (v : JLeaf)
  | jobj (fields : List (String × JLeaf))
deriving DecidableEq, Repr

/-- A response body: a JSON object (key/value list). -/
abbrev Body := List (String × JVal)

/-- An HTTP response: status code plus JSON body.  `Response(x)` with no
explicit status in DRF is status 200. -/
structure Resp where
  status : Nat
  body : Body
deriving DecidableEq, Repr

/-- Does the body (searching one level into nested objects too) contain a
field with the given key? -/
def bodyHasKey (b : Body) (k : String) : Bool :=
  b.any fun p =>
    p.1 == k ||
      match p.2 with
      | .jobj fs => fs.any (fun q => q.1 == k)
      | .leaf _ => false

/-- A user record (`users.User`; Django stores the salted hash in the
`password` attribute — the spec calls it `password_hash`). -/
structure UserRec where
  id : Nat
  email : String
  password : String
  full_name : String
deriving DecidableEq, Repr

/-- One entry of the expiring cache: key, stored user id, absolute expiry
instant (seconds). -/
structure CacheEntry where
  key : String
  value : Nat
  expiresAt : Nat
deriving DecidableEq, Repr

/-- Global state: the credential store, the reset-token cache, and the
clock (seconds). -/
structure Store where
  users : List UserRec
  cache : List CacheEntry
  now : Nat
deriving DecidableEq, Repr

/-- Python truthiness of `request.data.get(k)` for a string field:
`None` and `''` are falsy. -/
def pyTruthy : Option String → Bool
  | none => false
  | some s => !s.isEmpty

/-- Stand-in for Django `set_password` hashing (one-way salted hash,
modelled as an opaque injective tagging). -/
def hashPassword (p : String) : String := "pbkdf2_sha256$" ++ p

/-- `cache.set key value timeout`: replaces any entry under the key and
stores expiry `now + timeout`. -/
def cacheSet (s : Store) (k : String) (v : Nat) (timeout : Nat) : Store :=
  { s with cache := ⟨k, v, s.now + timeout⟩ :: s.cache.filter (fun e => e.key ≠ k) }

/-- `cache.get key`: the stored value while the entry exists and its TTL
has not elapsed; `None` otherwise (absent and expired collapse). -/
def cacheGet (s : Store) (k : String) : Option Nat :=
  match s.cache.find? (fun e => e.key == k) with
  | some e => if s.now < e.expiresAt then some e.value else none
  | none => none

/-- `cache.delete key`: removes the mapping; a no-op when absent. -/
def cacheDelete (s : Store) (k : String) : Store :=
  { s with cache := s.cache.filter (fun e => e.key ≠ k) }

/-- `User.objects.get(email=email)` as used via `try/except DoesNotExist`
(`UserService.get_user_by_email`). -/
def getUserByEmail (s : Store) (email : String) : Option UserRec :=
  s.users.find? (fun u => u.email == email)

/-- `User.objects.get(id=user_id)` as used via `try/except DoesNotExist`
(`UserService.get_user_by_id`). -/
def getUserById (s : Store) (uid : Nat) : Option UserRec :=
  s.users.find? (fun u => u.id == uid)

/-- `user.set_password(new); user.save()`
(`UserService.update_user_password`): overwrite the stored hash on the
record with that id. -/
def updateUserPassword (s : Store) (uid : Nat) (newHash : String) : Store :=
  { s with
    users := s.users.map (fun u => if u.id == uid then { u with password := newHash } else u) }

/-- `settings.DEBUG = os.getenv('DEBUG', '1') == '1'`
(`core/settings.py`, line 8). -/
def DEBUG_of (env : Option String) : Bool := env.getD "1" == "1"

/-- `forgot_password` view (`users/views.py`).  `debug` is the value of
`settings.DEBUG`; `freshToken` is the `get_random_string(32)` draw.
The token-exposure gate is the literal `if True:` of the source. -/
def forgot_password (debug : Bool) (s : Store) (email : Option String)
    (freshToken : String) : Store × Resp :=
  if !pyTruthy email then
    (s, ⟨400, [("detail", .leaf (.jstr "Email required"))]⟩)
  else
    match getUserByEmail s (email.getD "") with
    | none => (s, ⟨200, [("success", .leaf (.jbool false))]⟩)
    | some user =>
      let cacheKey := "pwdreset:" ++ freshToken
      let s1 := cacheSet s cacheKey user.id (10 * 60)
      let response : Body := [("success", .leaf (.jbool true))]
      let response := if true then response ++ [("token", .leaf (.jstr freshToken))] else response
      (s1, ⟨200, response⟩)

/-- Events of one `reset_password` execution, in program order. -/
inductive Event where
  | cacheRead (key : String) (result : Option Nat)
  | userFetch (uid : Nat) (found : Bool)
  | pwWrite (uid : Nat) (newHash : String)
  | cacheDel (key : String)
  | respond (status : Nat)
deriving DecidableEq, Repr

/-- `reset_password` view (`users/views.py`), instrumented with its event
trace.  `if not user_id` in the source is Python-falsy, so a cached id
of `0` is rejected like an absent token. -/
def reset_password_trace (s : Store) (token newPassword : Option String) :
    Store × Resp × List Event :=
  if !pyTruthy token || !pyTruthy newPassword then
    (s, ⟨400, [("detail", .leaf (.jstr "token and password required"))]⟩, [.respond 400])
  else
    let t := token.getD ""
    let np := newPassword.getD ""
    let cacheKey := "pwdreset:" ++ t
    let userId := cacheGet s cacheKey
    match userId with
    | none =>
      (s, ⟨400, [("detail", .leaf (.jstr "Invalid or expired token"))]⟩,
        [.cacheRead cacheKey none, .respond 400])
    | some uid =>
      if uid == 0 then
        (s, ⟨400, [("detail", .leaf (.jstr "Invalid or expired token"))]⟩,
          [.cacheRead cacheKey (some uid), .respond 400])
      else
        match getUserById s uid with
        | none =>
          (s, ⟨400, [("detail", .leaf (.jstr "Invalid token"))]⟩,
            [.cacheRead cacheKey (some uid), .userFetch uid false, .respond 400])
        | some _user =>
          let newHash := hashPassword np
          let s1 := updateUserPassword s uid newHash
          let s2 := cacheDelete s1 cacheKey
          (s2, ⟨200, [("success", .leaf (.jbool true))]⟩,
            [.cacheRead cacheKey (some uid), .userFetch uid true,
             .pwWrite uid newHash, .cacheDel cacheKey, .respond 200])

/-- `reset_password` view: state and response (trace dropped). -/
def reset_password (s : Store) (token newPassword : Option String) : Store × Resp :=
  ((reset_password_trace s token newPassword).1, (reset_password_trace s token newPassword).2.1)

/-- The first atomic step of `reset_password` on the shared cache:
`user_id = cache.get(cache_key)`. -/
def resolve_phase (s : Store) (t : String) : Option Nat :=
  cacheGet s ("pwdreset:" ++ t)

/-- The remainder of `reset_password` after the cache read: the falsy
check on the fetched id, the user lookup, the password overwrite, the
cache delete, and the response. -/
def commit_phase (s : Store) (t : String) (userId : Option Nat) (np : String) : Store × Resp :=
  match userId with
  | none => (s, ⟨400, [("detail", .leaf (.jstr "Invalid or expired token"))]⟩)
  | some uid =>
    if uid == 0 then
      (s, ⟨400, [("detail", .leaf (.jstr "Invalid or expired token"))]⟩)
    else
      match getUserById s uid with
      | none => (s, ⟨400, [("detail", .leaf (.jstr "Invalid token"))]⟩)
      | some _user =>
        let s1 := updateUserPassword s uid (hashPassword np)
        let s2 := cacheDelete s1 ("pwdreset:" ++ t)
        (s2, ⟨200, [("success", .leaf (.jbool true))]⟩)

/-- Stand-in for Django's `EmailField` well-formedness validation (the
`User` model itself is outside `src/`); the claims only condition on a
well-formed email, so any sound executable check serves. -/
def isValidEmail (e : String) : Bool := !e.isEmpty && e.data.contains '@'

/-- `RegisterView.post` with `RegisterSerializer` validation (email
required and well formed, unique; password required, `min_length=8`,
write-only; `full_name` optional, defaulted to `''`) followed by
`UserSerializer` rendering with fields `('id', 'email', 'full_name')`.
`freshId` is the database-assigned id. -/
def register (s : Store) (email password fullName : Option String)
    (freshId : Nat) : Store × Resp :=
  match email, password with
  | some em, some pw =>
    if !isValidEmail em then
      (s, ⟨400, [("email", .leaf (.jstr "Enter a valid email address."))]⟩)
    else if (getUserByEmail s em).isSome then
      (s, ⟨400, [("email", .leaf (.jstr "user with this email already exists."))]⟩)
    else if pw.length < 8 then
      (s, ⟨400, [("password", .leaf (.jstr "Ensure this field has at least 8 characters."))]⟩)
    else
      let user : UserRec := ⟨freshId, em, hashPassword pw, fullName.getD ""⟩
      let s1 := { s with users := s.users ++ [user] }
      (s1, ⟨201,
        [("success", .leaf (.jbool true)),
         ("data", .jobj
           [("id", .jnum user.id), ("email", .jstr user.email),
            ("full_name", .jstr user.full_name)])]⟩)
  | _, _ =>
    (s, ⟨400, [("detail", .leaf (.jstr "This field is required."))]⟩)

/-! ## Basic lemmas about the embedded operations -/

theorem pyTruthy_some_of_ne {t : String} (h : t ≠ "") : pyTruthy (some t) = true := by
  have he : t.isEmpty = false :=
    Bool.eq_false_iff.mpr fun he => h ((String.isEmpty_iff t).mp he)
  simp [pyTruthy, he]

theorem cacheGet_cacheDelete_self (s : Store) (k : String) :
    cacheGet (cacheDelete s k) k = none := by
  have hfalse : List.find? (fun _ : CacheEntry => false) s.cache = none := by
    rw [List.find?_eq_none]; intro x _; simp
  simp [cacheGet, cacheDelete, hfalse]

theorem cacheGet_cacheSet_self (s : Store) (k : String) (v timeout : Nat)
    (h : 0 < timeout) : cacheGet (cacheSet s k v timeout) k = some v := by
  simp [cacheGet, cacheSet, List.find?_cons, h]

theorem getUserById_isSome_of_getUserByEmail (s : Store) (email : String) (u : UserRec)
    (h : getUserByEmail s email = some u) : ∃ w, getUserById s u.id = some w := by
  have hmem := List.mem_of_find?_eq_some h
  have hsome : (s.users.find? (fun w => w.id == u.id)).isSome :=
    List.find?_isSome.mpr ⟨u, hmem, by simp⟩
  exact Option.isSome_iff_exists.mp hsome

/-! ## Branch reductions of the embedded views -/

theorem forgot_password_found (debug : Bool) (s : Store) (e tok : String) (u : UserRec)
    (he : e ≠ "") (hu : getUserByEmail s e = some u) :
    forgot_password debug s (some e) tok =
      (cacheSet s ("pwdreset:" ++ tok) u.id (10 * 60),
       ⟨200, [("success", .leaf (.jbool true)), ("token", .leaf (.jstr tok))]⟩) := by
  simp [forgot_password, pyTruthy_some_of_ne he, hu]

theorem forgot_password_notfound (debug : Bool) (s : Store) (e tok : String)
    (he : e ≠ "") (hn : getUserByEmail s e = none) :
    forgot_password debug s (some e) tok =
      (s, ⟨200, [("success", .leaf (.jbool false))]⟩) := by
  simp [forgot_password, pyTruthy_some_of_ne he, hn]

theorem reset_password_trace_absent (s : Store) (t np : String)
    (ht : t ≠ "") (hnp : np ≠ "")
    (hget : cacheGet s ("pwdreset:" ++ t) = none) :
    reset_password_trace s (some t) (some np) =
      (s, ⟨400, [("detail", .leaf (.jstr "Invalid or expired token"))]⟩,
       [.cacheRead ("pwdreset:" ++ t) none, .respond 400]) := by
  simp [reset_password_trace, pyTruthy_some_of_ne ht, pyTruthy_some_of_ne hnp, hget]

theorem reset_password_trace_zero (s : Store) (t np : String)
    (ht : t ≠ "") (hnp : np ≠ "")
    (hget : cacheGet s ("pwdreset:" ++ t) = some 0) :
    reset_password_trace s (some t) (some np) =
      (s, ⟨400, [("detail", .leaf (.jstr "Invalid or expired token"))]⟩,
       [.cacheRead ("pwdreset:" ++ t) (some 0), .respond 400]) := by
  simp [reset_password_trace, pyTruthy_some_of_ne ht, pyTruthy_some_of_ne hnp, hget]

theorem reset_password_trace_orphan (s : Store) (t np : String) (uid : Nat)
    (ht : t ≠ "") (hnp : np ≠ "")
    (hget : cacheGet s ("pwdreset:" ++ t) = some uid) (h0 : uid ≠ 0)
    (hw : getUserById s uid = none) :
    reset_password_trace s (some t) (some np) =
      (s, ⟨400, [("detail", .leaf (.jstr "Invalid token"))]⟩,
       [.cacheRead ("pwdreset:" ++ t) (some uid), .userFetch uid false, .respond 400]) := by
  simp [reset_password_trace, pyTruthy_some_of_ne ht, pyTruthy_some_of_ne hnp, hget, h0, hw]

theorem reset_password_trace_success (s : Store) (t np : String) (uid : Nat) (w : UserRec)
    (ht : t ≠ "") (hnp : np ≠ "")
    (hget : cacheGet s ("pwdreset:" ++ t) = some uid) (h0 : uid ≠ 0)
    (hw : getUserById s uid = some w) :
    reset_password_trace s (some t) (some np) =
      (cacheDelete (updateUserPassword s uid (hashPassword np)) ("pwdreset:" ++ t),
       ⟨200, [("success", .leaf (.jbool true))]⟩,
       [.cacheRead ("pwdreset:" ++ t) (some uid), .userFetch uid true,
        .pwWrite uid (hashPassword np), .cacheDel ("pwdreset:" ++ t), .respond 200]) := by
  simp [reset_password_trace, pyTruthy_some_of_ne ht, pyTruthy_some_of_ne hnp, hget, h0, hw]

/-- The view really is the sequential composition of the two cache-visible
phases: an atomic `cache.get` followed by the falsy check, user lookup,
password write, and `cache.delete`. -/
theorem reset_password_eq_phases (s : Store) (t np : String)
    (ht : t ≠ "") (hnp : np ≠ "") :
    reset_password s (some t) (some np) = commit_phase s t (resolve_phase s t) np := by
  cases hget : cacheGet s ("pwdreset:" ++ t) with
  | none =>
    simp [reset_password, reset_password_trace_absent s t np ht hnp hget,
      commit_phase, resolve_phase, hget]
  | some uid =>
    by_cases h0 : uid = 0
    · subst h0
      simp [reset_password, reset_password_trace_zero s t np ht hnp hget,
        commit_phase, resolve_phase, hget]
    · cases hw : getUserById s uid with
      | none =>
        simp [reset_password, reset_password_trace_orphan s t np uid ht hnp hget h0 hw,
          commit_phase, resolve_phase, hget, h0, hw]
      | some w =>
        simp [reset_password, reset_password_trace_success s t np uid w ht hnp hget h0 hw,
          commit_phase, resolve_phase, hget, h0, hw]

/-! ## Concrete states used to instantiate the theorems -/

/-- One registered user, empty cache, clock at 0. -/
def sDemo : Store :=
  ⟨[⟨1, "user@test.com", hashPassword "pw12345678", "Test User"⟩], [], 0⟩

/-- `sDemo` after a reset token `tokA` was issued for user 1
(expiry 600 = issuance instant 0 + the 10-minute TTL). -/
def sIssued : Store :=
  ⟨[⟨1, "user@test.com", hashPassword "pw12345678", "Test User"⟩],
   [⟨"pwdreset:tokA", 1, 600⟩], 0⟩

/-! ## Claims -/

/-- **C1.** A token issued by `forgot_password` is redeemable at most
once: the first `reset_password` with it succeeds, and a second call
with the same token fails with `Invalid or expired token`, because
successful redemption deletes the cache mapping before returning. -/
theorem c1_reset_token_single_use
    (debug : Bool) (s : Store) (email tok np : String) (u : UserRec)
    (he : email ≠ "") (hu : getUserByEmail s email = some u)
    (hid : u.id ≠ 0) (ht : tok ≠ "") (hnp : np ≠ "") :
    (reset_password (forgot_password debug s (some email) tok).1
        (some tok) (some np)).2 =
      ⟨200, [("success", .leaf (.jbool true))]⟩ ∧
    (reset_password
        (reset_password (forgot_password debug s (some email) tok).1
          (some tok) (some np)).1
        (some tok) (some np)).2 =
      ⟨400, [("detail", .leaf (.jstr "Invalid or expired token"))]⟩ := by
  have hfp : (forgot_password debug s (some email) tok).1 =
      cacheSet s ("pwdreset:" ++ tok) u.id (10 * 60) := by
    rw [forgot_password_found debug s email tok u he hu]
  have hget : cacheGet (cacheSet s ("pwdreset:" ++ tok) u.id (10 * 60))
      ("pwdreset:" ++ tok) = some u.id :=
    cacheGet_cacheSet_self s _ u.id (10 * 60) (by norm_num)
  obtain ⟨w, hw⟩ := getUserById_isSome_of_getUserByEmail s email u hu
  have hw1 : getUserById (cacheSet s ("pwdreset:" ++ tok) u.id (10 * 60)) u.id = some w := by
    simpa [getUserById, cacheSet] using hw
  have h1 := reset_password_trace_success
    (cacheSet s ("pwdreset:" ++ tok) u.id (10 * 60)) tok np u.id w ht hnp hget hid hw1
  have h2 := reset_password_trace_absent
    (cacheDelete
      (updateUserPassword (cacheSet s ("pwdreset:" ++ tok) u.id (10 * 60)) u.id
        (hashPassword np))
      ("pwdreset:" ++ tok)) tok np ht hnp
    (cacheGet_cacheDelete_self _ _)
  rw [hfp]
  constructor
  · simp [reset_password, h1]
  · simp [reset_password, h1, h2]

/-- Witness for C1 at a concrete state. -/
theorem c1_witness :
    (reset_password (forgot_password true sDemo (some "user@test.com") "tokA").1
        (some "tokA") (some "newpw123456")).2 =
      ⟨200, [("success", .leaf (.jbool true))]⟩ ∧
    (reset_password
        (reset_password (forgot_password true sDemo (some "user@test.com") "tokA").1
          (some "tokA") (some "newpw123456")).1
        (some "tokA") (some "newpw123456")).2 =
      ⟨400, [("detail", .leaf (.jstr "Invalid or expired token"))]⟩ :=
  c1_reset_token_single_use true sDemo "user@test.com" "tokA" "newpw123456"
    ⟨1, "user@test.com", hashPassword "pw12345678", "Test User"⟩
    (by decide) (by decide) (by decide) (by decide) (by decide)

/-- **C2.** In every successful `reset_password` execution the trace is:
cache read, user fetch, password-hash overwrite, cache delete, success
response — the mutation strictly precedes the invalidation, which
strictly precedes the response — and when the success response is
produced the token mapping is already gone from the cache. -/
theorem c2_mutation_before_invalidation_before_success
    (s s' : Store) (token np : Option String) (r : Resp) (evs : List Event)
    (hrun : reset_password_trace s token np = (s', r, evs))
    (hok : r.status = 200) :
    ∃ uid,
      evs = [.cacheRead ("pwdreset:" ++ token.getD "") (some uid),
             .userFetch uid true,
             .pwWrite uid (hashPassword (np.getD "")),
             .cacheDel ("pwdreset:" ++ token.getD ""),
             .respond 200] ∧
      cacheGet s' ("pwdreset:" ++ token.getD "") = none := by
  unfold reset_password_trace at hrun
  split at hrun
  · cases hrun; simp at hok
  · simp only at hrun
    split at hrun
    · cases hrun; simp at hok
    · rename_i uid _
      split at hrun
      · cases hrun; simp at hok
      · split at hrun
        · cases hrun; simp at hok
        · cases hrun
          exact ⟨uid, rfl, cacheGet_cacheDelete_self _ _⟩

/-- Witness for C2 at a concrete state. -/
theorem c2_witness :
    ∃ uid,
      (reset_password_trace sIssued (some "tokA") (some "newpw123456")).2.2 =
        [.cacheRead ("pwdreset:" ++ (some "tokA").getD "") (some uid),
         .userFetch uid true,
         .pwWrite uid (hashPassword ((some "newpw123456").getD "")),
         .cacheDel ("pwdreset:" ++ (some "tokA").getD ""),
         .respond 200] ∧
      cacheGet (reset_password_trace sIssued (some "tokA") (some "newpw123456")).1
        ("pwdreset:" ++ (some "tokA").getD "") = none :=
  c2_mutation_before_invalidation_before_success sIssued
    (reset_password_trace sIssued (some "tokA") (some "newpw123456")).1
    (some "tokA") (some "newpw123456")
    (reset_password_trace sIssued (some "tokA") (some "newpw123456")).2.1
    (reset_password_trace sIssued (some "tokA") (some "newpw123456")).2.2
    rfl (by decide)

/-- **C3.** The claim says a `new_password` shorter than 8 characters is
rejected before any cache or credential-store interaction.  The view
does not enforce this: with a valid token and the 6-character password
`short1`, `reset_password` reads the cache, overwrites the user's
password hash, consumes the token, and returns success. -/
theorem c3_short_password_reaches_cache_and_mutates :
    "short1".length < 8 ∧
    reset_password sIssued (some "tokA") (some "short1") =
      (⟨[⟨1, "user@test.com", hashPassword "short1", "Test User"⟩], [], 0⟩,
       ⟨200, [("success", .leaf (.jbool true))]⟩) ∧
    (reset_password_trace sIssued (some "tokA") (some "short1")).2.2 =
      [.cacheRead "pwdreset:tokA" (some 1), .userFetch 1 true,
       .pwWrite 1 (hashPassword "short1"), .cacheDel "pwdreset:tokA", .respond 200] :=
  ⟨by decide, by decide, by decide⟩

/-- **C4.** `forgot_password` for a well-formed email with no matching
user returns the same status (200) as the success path, with body
`success: false`, no token field, and an unchanged state (no token
issued); the success path for an existing user also returns 200. -/
theorem c4_nonexistent_email_same_status_no_token
    (debug : Bool) (s s₂ : Store) (e tok e₂ tok₂ : String) (u : UserRec)
    (hv : isValidEmail e = true) (hn : getUserByEmail s e = none)
    (he₂ : e₂ ≠ "") (hu : getUserByEmail s₂ e₂ = some u) :
    forgot_password debug s (some e) tok =
      (s, ⟨200, [("success", .leaf (.jbool false))]⟩) ∧
    bodyHasKey (forgot_password debug s (some e) tok).2.body "token" = false ∧
    (forgot_password debug s₂ (some e₂) tok₂).2.status = 200 := by
  have he : e ≠ "" := by
    intro h; subst h; exact absurd hv (by decide)
  refine ⟨forgot_password_notfound debug s e tok he hn, ?_, ?_⟩
  · simp [forgot_password_notfound debug s e tok he hn, bodyHasKey]
  · simp [forgot_password_found debug s₂ e₂ tok₂ u he₂ hu]

/-- Witness for C4 at a concrete state. -/
theorem c4_witness :
    forgot_password true sDemo (some "ghost@test.com") "tokB" =
      (sDemo, ⟨200, [("success", .leaf (.jbool false))]⟩) ∧
    bodyHasKey (forgot_password true sDemo (some "ghost@test.com") "tokB").2.body
      "token" = false ∧
    (forgot_password true sDemo (some "user@test.com") "tokC").2.status = 200 :=
  c4_nonexistent_email_same_status_no_token true sDemo sDemo
    "ghost@test.com" "tokB" "user@test.com" "tokC"
    ⟨1, "user@test.com", hashPassword "pw12345678", "Test User"⟩
    (by decide) (by decide) (by decide) (by decide)

/-- **C5.** `reset_password` with a token absent from the cache (never
issued, expired, or already consumed) fails with
`Invalid or expired token` and leaves the state — every user's password
hash and the whole cache — unchanged. -/
theorem c5_absent_token_fails_without_side_effects
    (s : Store) (t np : String) (ht : t ≠ "") (hnp : np ≠ "")
    (habs : cacheGet s ("pwdreset:" ++ t) = none) :
    reset_password s (some t) (some np) =
      (s, ⟨400, [("detail", .leaf (.jstr "Invalid or expired token"))]⟩) := by
  simp [reset_password, reset_password_trace_absent s t np ht hnp habs]

/-- Witness for C5 at a concrete state. -/
theorem c5_witness :
    reset_password sDemo (some "neverissuedtoken") (some "newpassword123") =
      (sDemo, ⟨400, [("detail", .leaf (.jstr "Invalid or expired token"))]⟩) :=
  c5_absent_token_fails_without_side_effects sDemo "neverissuedtoken" "newpassword123"
    (by decide) (by decide) (by decide)

/-- A state whose cache maps `tokO` to user id 5 while no such user
exists (account deleted after token issuance). -/
def sOrphan : Store := ⟨[], [⟨"pwdreset:tokO", 5, 600⟩], 0⟩

/-- **C6, counterexample.** The claim says the deleted-user failure has
the same status code AND the same response body as the
`invalid_or_expired_token` failure.  The status codes agree (400), but
the bodies differ: `Invalid token` versus `Invalid or expired token`. -/
theorem c6_counterexample :
    (reset_password sOrphan (some "tokO") (some "newpassword123")).2 =
      ⟨400, [("detail", .leaf (.jstr "Invalid token"))]⟩ ∧
    (reset_password sOrphan (some "neverissued") (some "newpassword123")).2 =
      ⟨400, [("detail", .leaf (.jstr "Invalid or expired token"))]⟩ ∧
    (reset_password sOrphan (some "tokO") (some "newpassword123")).2.body ≠
      (reset_password sOrphan (some "neverissued") (some "newpassword123")).2.body :=
  ⟨by decide, by decide, by decide⟩

/-- **C6, amended.** When the resolved user id no longer exists, the
call fails with the same status code (400) as the
`invalid_or_expired_token` failure and leaves the state unchanged, but
its body is `Invalid token`, distinct from `Invalid or expired token`,
so the body does distinguish the two failures. -/
theorem c6_deleted_user_same_status_different_body
    (s : Store) (t np : String) (uid : Nat)
    (ht : t ≠ "") (hnp : np ≠ "")
    (hres : cacheGet s ("pwdreset:" ++ t) = some uid) (h0 : uid ≠ 0)
    (hdel : getUserById s uid = none) :
    reset_password s (some t) (some np) =
      (s, ⟨400, [("detail", .leaf (.jstr "Invalid token"))]⟩) ∧
    (reset_password s (some t) (some np)).2.status = 400 ∧
    (reset_password s (some t) (some np)).2.body ≠
      [("detail", JVal.leaf (.jstr "Invalid or expired token"))] := by
  have h := reset_password_trace_orphan s t np uid ht hnp hres h0 hdel
  refine ⟨by simp [reset_password, h], by simp [reset_password, h], ?_⟩
  rw [show (reset_password s (some t) (some np)).2.body =
      [("detail", JVal.leaf (.jstr "Invalid token"))] from by simp [reset_password, h]]
  decide

/-- Witness for the amended C6 at a concrete state. -/
theorem c6_witness :
    reset_password sOrphan (some "tokO") (some "newpassword456") =
      (sOrphan, ⟨400, [("detail", .leaf (.jstr "Invalid token"))]⟩) ∧
    (reset_password sOrphan (some "tokO") (some "newpassword456")).2.status = 400 ∧
    (reset_password sOrphan (some "tokO") (some "newpassword456")).2.body ≠
      [("detail", JVal.leaf (.jstr "Invalid or expired token"))] :=
  c6_deleted_user_same_status_different_body sOrphan "tokO" "newpassword456" 5
    (by decide) (by decide) (by decide) (by decide) (by decide)

/-- `sDemo` with an outstanding token whose TTL has elapsed: the entry
expired at 600 and the clock is at 700. -/
def sExpired : Store :=
  ⟨[⟨1, "user@test.com", hashPassword "pw12345678", "Test User"⟩],
   [⟨"pwdreset:tokA", 1, 600⟩], 700⟩

/-- **C7.** Issued tokens are stored with the fixed 10-minute TTL: after
a successful `forgot_password` the cache holds the mapping with expiry
`now + 600` seconds.  A token whose TTL has elapsed fails resolution in
`reset_password` exactly as an explicitly invalidated one: both return
the same `Invalid or expired token` response and leave their state
unchanged. -/
theorem c7_ttl_600_expired_equals_invalidated
    (debug : Bool) (s : Store) (e tok : String) (u : UserRec)
    (he : e ≠ "") (hu : getUserByEmail s e = some u)
    (s₂ : Store) (t₂ np : String) (en : CacheEntry)
    (ht₂ : t₂ ≠ "") (hnp : np ≠ "")
    (hfind : s₂.cache.find? (fun x => x.key == "pwdreset:" ++ t₂) = some en)
    (hexp : en.expiresAt ≤ s₂.now) :
    (forgot_password debug s (some e) tok).1.cache =
      ⟨"pwdreset:" ++ tok, u.id, s.now + 600⟩ ::
        s.cache.filter (fun x => x.key ≠ "pwdreset:" ++ tok) ∧
    reset_password s₂ (some t₂) (some np) =
      (s₂, ⟨400, [("detail", .leaf (.jstr "Invalid or expired token"))]⟩) ∧
    reset_password (cacheDelete s₂ ("pwdreset:" ++ t₂)) (some t₂) (some np) =
      (cacheDelete s₂ ("pwdreset:" ++ t₂),
       ⟨400, [("detail", .leaf (.jstr "Invalid or expired token"))]⟩) := by
  have habs : cacheGet s₂ ("pwdreset:" ++ t₂) = none := by
    simp [cacheGet, hfind]
    omega
  refine ⟨?_, ?_, ?_⟩
  · rw [forgot_password_found debug s e tok u he hu]
    simp [cacheSet]
  · simp [reset_password, reset_password_trace_absent s₂ t₂ np ht₂ hnp habs]
  · simp [reset_password,
      reset_password_trace_absent (cacheDelete s₂ ("pwdreset:" ++ t₂)) t₂ np ht₂ hnp
        (cacheGet_cacheDelete_self s₂ ("pwdreset:" ++ t₂))]

/-- Witness for C7 at concrete states. -/
theorem c7_witness :
    (forgot_password true sDemo (some "user@test.com") "tokB").1.cache =
      ⟨"pwdreset:tokB", (1 : Nat), sDemo.now + 600⟩ ::
        sDemo.cache.filter (fun x => x.key ≠ "pwdreset:tokB") ∧
    reset_password sExpired (some "tokA") (some "newpassword123") =
      (sExpired, ⟨400, [("detail", .leaf (.jstr "Invalid or expired token"))]⟩) ∧
    reset_password (cacheDelete sExpired "pwdreset:tokA") (some "tokA")
        (some "newpassword123") =
      (cacheDelete sExpired "pwdreset:tokA",
       ⟨400, [("detail", .leaf (.jstr "Invalid or expired token"))]⟩) :=
  c7_ttl_600_expired_equals_invalidated true sDemo "user@test.com" "tokB"
    ⟨1, "user@test.com", hashPassword "pw12345678", "Test User"⟩
    (by decide) (by decide) sExpired "tokA" "newpassword123"
    ⟨"pwdreset:tokA", 1, 600⟩ (by decide) (by decide) (by decide) (by decide)

/-- A state with one user and an outstanding token `tokR`, on which two
redemptions race. -/
def sRace : Store :=
  ⟨[⟨1, "user@test.com", hashPassword "pw12345678", "Test User"⟩],
   [⟨"pwdreset:tokR", 1, 600⟩], 0⟩

/-- **C8, counterexample.** Interleave two redemptions of the same token
as: A's cache read, B's cache read, A's commit, B's commit.  This is a
schedule of two concurrent `reset_password` calls — by
`reset_password_eq_phases` each call is exactly the atomic cache read
(`resolve_phase`) followed by `commit_phase` — and BOTH calls return
success, not exactly one success and one failure: resolve-then-delete
is not atomic. -/
theorem c8_counterexample :
    (commit_phase sRace "tokR" (resolve_phase sRace "tokR") "newpassword1").2.status
      = 200 ∧
    (commit_phase
        (commit_phase sRace "tokR" (resolve_phase sRace "tokR") "newpassword1").1
        "tokR" (resolve_phase sRace "tokR") "newpassword2").2.status = 200 :=
  ⟨by decide, by decide⟩

/-- **C8, amended.** When the two redemptions do not overlap (the second
starts only after the first completed), exactly one succeeds: the first
returns success and the second fails with `Invalid or expired token`. -/
theorem c8_sequential_exactly_one_success
    (s : Store) (t np1 np2 : String) (uid : Nat) (w : UserRec)
    (ht : t ≠ "") (h1 : np1 ≠ "") (h2 : np2 ≠ "")
    (hget : cacheGet s ("pwdreset:" ++ t) = some uid) (h0 : uid ≠ 0)
    (hu : getUserById s uid = some w) :
    (reset_password s (some t) (some np1)).2 =
      ⟨200, [("success", .leaf (.jbool true))]⟩ ∧
    (reset_password (reset_password s (some t) (some np1)).1 (some t) (some np2)).2 =
      ⟨400, [("detail", .leaf (.jstr "Invalid or expired token"))]⟩ := by
  have hs := reset_password_trace_success s t np1 uid w ht h1 hget h0 hu
  have ha := reset_password_trace_absent
    (cacheDelete (updateUserPassword s uid (hashPassword np1)) ("pwdreset:" ++ t))
    t np2 ht h2 (cacheGet_cacheDelete_self _ _)
  exact ⟨by simp [reset_password, hs], by simp [reset_password, hs, ha]⟩

/-- Witness for the amended C8 at a concrete state. -/
theorem c8_witness :
    (reset_password sRace (some "tokR") (some "newpassword1")).2 =
      ⟨200, [("success", .leaf (.jbool true))]⟩ ∧
    (reset_password (reset_password sRace (some "tokR") (some "newpassword1")).1
        (some "tokR") (some "newpassword2")).2 =
      ⟨400, [("detail", .leaf (.jstr "Invalid or expired token"))]⟩ :=
  c8_sequential_exactly_one_success sRace "tokR" "newpassword1" "newpassword2" 1
    ⟨1, "user@test.com", hashPassword "pw12345678", "Test User"⟩
    (by decide) (by decide) (by decide) (by decide) (by decide) (by decide)

/-- **C9.** A valid registration (well-formed email, password of at
least 8 characters, email not yet taken) returns status 201 with
`data` whose `email` equals the input email and whose fields are
exactly `id`, `email`, `full_name`; no field named `password` or
`password_hash` occurs anywhere in the response. -/
theorem c9_register_echoes_email_never_password
    (s : Store) (em pw fn : String) (fid : Nat)
    (hv : isValidEmail em = true) (hlen : 8 ≤ pw.length)
    (hdup : getUserByEmail s em = none) :
    (register s (some em) (some pw) (some fn) fid).2 =
      ⟨201, [("success", .leaf (.jbool true)),
             ("data", .jobj [("id", .jnum fid), ("email", .jstr em),
                             ("full_name", .jstr fn)])]⟩ ∧
    bodyHasKey (register s (some em) (some pw) (some fn) fid).2.body "password"
      = false ∧
    bodyHasKey (register s (some em) (some pw) (some fn) fid).2.body "password_hash"
      = false := by
  have hr : (register s (some em) (some pw) (some fn) fid).2 =
      ⟨201, [("success", .leaf (.jbool true)),
             ("data", .jobj [("id", .jnum fid), ("email", .jstr em),
                             ("full_name", .jstr fn)])]⟩ := by
    simp [register, hv, hdup, Nat.not_lt.mpr hlen]
  exact ⟨hr, by rw [hr]; simp [bodyHasKey], by rw [hr]; simp [bodyHasKey]⟩

/-- Witness for C9 at a concrete input. -/
theorem c9_witness :
    (register sDemo (some "new@test.com") (some "pw12345678") (some "New User") 2).2 =
      ⟨201, [("success", .leaf (.jbool true)),
             ("data", .jobj [("id", .jnum 2), ("email", .jstr "new@test.com"),
                             ("full_name", .jstr "New User")])]⟩ ∧
    bodyHasKey (register sDemo (some "new@test.com") (some "pw12345678")
        (some "New User") 2).2.body "password" = false ∧
    bodyHasKey (register sDemo (some "new@test.com") (some "pw12345678")
        (some "New User") 2).2.body "password_hash" = false :=
  c9_register_echoes_email_never_password sDemo "new@test.com" "pw12345678" "New User" 2
    (by decide) (by decide) (by decide)

/-- **C10.** Whatever the `DEBUG` environment variable is set to, a
`forgot_password` call for a registered user returns the freshly issued
token in plain form in the response body: the debug-only gate in the
source is the constant `True`, so exposure does not depend on the DEBUG
setting. -/
theorem c10_token_always_in_response
    (env : Option String) (s : Store) (e tok : String) (u : UserRec)
    (he : e ≠ "") (hu : getUserByEmail s e = some u) :
    (forgot_password (DEBUG_of env) s (some e) tok).2 =
      ⟨200, [("success", .leaf (.jbool true)), ("token", .leaf (.jstr tok))]⟩ := by
  simp [forgot_password_found (DEBUG_of env) s e tok u he hu]

/-- Witness for C10 with DEBUG explicitly off (`DEBUG=0`). -/
theorem c10_witness :
    (forgot_password (DEBUG_of (some "0")) sDemo (some "user@test.com") "tokD").2 =
      ⟨200, [("success", .leaf (.jbool true)), ("token", .leaf (.jstr "tokD"))]⟩ :=
  c10_token_always_in_response (some "0") sDemo "user@test.com" "tokD"
    ⟨1, "user@test.com", hashPassword "pw12345678", "Test User"⟩
    (by decide) (by decide)

end AuthService
